import Mathlib

/-!
Verification of the secure-storage / offline-caching core of the
claude-usage-web-app repository against its specification.

The development shallowly embeds the relevant JavaScript source:

* `CryptoUtils` (deploy/firebase/js/utils.js): PBKDF2 key derivation and
  AES-GCM authenticated encryption via the Web Crypto platform API.  The
  platform AEAD is modelled as an ideal authenticated cipher: the
  ciphertext consists of the plaintext followed by an authentication tag
  that injectively fingerprints the key, the IV and the plaintext, and
  decryption succeeds exactly when the recomputed tag matches.  The
  base64 transport (`btoa(String.fromCharCode(...))` on storing,
  `atob` on reading) is a bijection between byte sequences and their
  base64 images (`atob(btoa(x)) = x`), so blobs are modelled directly as
  the underlying byte sequences, and a JSON-serializable value is
  represented by its serialization bytes (`JSON.parse(JSON.stringify v)
  = v` for serializable `v`, so the byte-level round trip is equivalent
  to the value-level one).  Bytes are natural numbers; genuine bytes are
  below 256 while ideal authentication tags live at 256 and above, which
  makes single-byte tampering of the tag position detectable in the
  model just as a 128-bit tag mismatch is detected by AES-GCM.
* `StorageManager` (deploy/github/js/storage-manager.js): secure data,
  usage records and the TTL cache, with both the IndexedDB path and the
  localStorage fallback path.  IndexedDB object stores keyed on a
  keyPath are modelled as lists with `put` (insert-or-replace) semantics;
  localStorage maps are modelled as functions from keys to optional
  records.
* `ManualAuthManager` (js/auth/manual-auth.js): session creation,
  validation and restore.
* The service worker (unnamed/part_002 and service-worker.js): request
  classification and the network-first strategy.  `Date.now()` and the
  random salt/IV produced by `crypto.getRandomValues` enter every
  modelled operation as explicit parameters.
-/

/-! ## Byte-level primitives -/

/-- Bytes of a string, as the `TextEncoder.encode` platform call used by
`CryptoUtils.deriveKey` produces them; character codes stand in for the
UTF-8 bytes (both encodings are injective, which is all the proofs
use). -/
def strBytes (s : String) : List Nat :=
  s.data.map Char.toNat

/-- Injective encoding of a byte list into a single natural number,
used to build ideal authentication tags. -/
def encList (l : List Nat) : Nat :=
  l.foldr (fun a r => Nat.pair a r + 1) 0

theorem encList_injective : Function.Injective encList := by
  intro l m h
  induction l generalizing m with
  | nil =>
    cases m with
    | nil => rfl
    | cons b bs => simp [encList] at h
  | cons a as ih =>
    cases m with
    | nil => simp [encList] at h
    | cons b bs =>
      simp only [encList, List.foldr_cons, Nat.add_right_cancel_iff] at h
      obtain ⟨h1, h2⟩ := Nat.pair_eq_pair.mp h
      have := ih (m := bs) h2
      simp [h1, this]

/-! ## Crypto Module (CryptoUtils, deploy/firebase/js/utils.js) -/

/-- A derived AES key.  PBKDF2-SHA256 with fixed iteration count is a
deterministic injective function of the password bytes and the salt, so
the ideal model identifies the key with that pair. -/
def deriveKey (password : String) (salt : List Nat) : List Nat × List Nat :=
  (strBytes password, salt)

/-- Ideal authentication tag of an AES-GCM encryption: an injective
fingerprint of key, IV and plaintext.  Real tags are 16 bytes; the model
folds them into one number that is always at least 256, so a tag can
never collide with a single (sub-256) byte written over it. -/
def tagOf (key : List Nat × List Nat) (iv pt : List Nat) : Nat :=
  256 + Nat.pair (encList key.1)
    (Nat.pair (encList key.2) (Nat.pair (encList iv) (encList pt)))

theorem tagOf_ge (key : List Nat × List Nat) (iv pt : List Nat) :
    256 ≤ tagOf key iv pt :=
  Nat.le_add_right 256 _

theorem tagOf_inj {k k' : List Nat × List Nat} {iv iv' pt pt' : List Nat}
    (h : tagOf k iv pt = tagOf k' iv' pt') : k = k' ∧ iv = iv' ∧ pt = pt' := by
  unfold tagOf at h
  have h0 := Nat.add_left_cancel h
  obtain ⟨h1, h2⟩ := Nat.pair_eq_pair.mp h0
  obtain ⟨h3, h4⟩ := Nat.pair_eq_pair.mp h2
  obtain ⟨h5, h6⟩ := Nat.pair_eq_pair.mp h4
  refine ⟨?_, encList_injective h5, encList_injective h6⟩
  have ha := encList_injective h1
  have hb := encList_injective h3
  exact Prod.ext ha hb

/-- Ideal model of `crypto.subtle.encrypt` with AES-GCM: ciphertext of
the same shape as the real one (payload followed by the authentication
tag, `|ct| = |pt| + tagLength`). -/
def aesGcmEncrypt (key : List Nat × List Nat) (iv pt : List Nat) : List Nat :=
  pt ++ [tagOf key iv pt]

/-- Ideal model of `crypto.subtle.decrypt` with AES-GCM: split off the
tag, recompute it from the recovered payload under the supplied key and
IV, and fail (`none`, the thrown `OperationError` of the platform call)
unless it matches. -/
def aesGcmDecrypt (key : List Nat × List Nat) (iv ct : List Nat) :
    Option (List Nat) :=
  match ct.reverse with
  | [] => none
  | t :: rest =>
    if t = tagOf key iv rest.reverse then some rest.reverse else none

theorem aesGcmDecrypt_encrypt (key : List Nat × List Nat) (iv pt : List Nat) :
    aesGcmDecrypt key iv (aesGcmEncrypt key iv pt) = some pt := by
  simp [aesGcmEncrypt, aesGcmDecrypt]

/-- `CryptoUtils.encrypt(data, password)` (utils.js lines 819-848): draw
a fresh 16-byte salt and 12-byte IV, derive the key, encrypt the JSON
bytes, and return the combined blob `salt ++ iv ++ ciphertext`.  The
randomness enters as the explicit `salt`/`iv` arguments; `data` enters
as its serialization bytes `pt`; the base64 transport is elided (it is
inverted exactly by `atob` on the decrypt side). -/
def CryptoUtils.encrypt (pt : List Nat) (password : String)
    (salt iv : List Nat) : List Nat :=
  salt ++ iv ++ aesGcmEncrypt (deriveKey password salt) iv pt

/-- `CryptoUtils.decrypt(encryptedData, password)` (utils.js lines
853-881): slice the first 16 bytes as salt, the next 12 as IV, the rest
as ciphertext, re-derive the key and decrypt.  `none` models the thrown
`DecryptionError` (the catch-all rethrow of any failure). -/
def CryptoUtils.decrypt (blob : List Nat) (password : String) :
    Option (List Nat) :=
  aesGcmDecrypt (deriveKey password (blob.take 16))
    ((blob.drop 16).take 12) (blob.drop 28)

theorem decrypt_parts (salt iv ct : List Nat) (p : String)
    (hs : salt.length = 16) (hi : iv.length = 12) :
    CryptoUtils.decrypt (salt ++ iv ++ ct) p =
      aesGcmDecrypt (deriveKey p salt) iv ct := by
  have h1 : (salt ++ (iv ++ ct)).take 16 = salt := List.take_left' hs
  have h2 : (salt ++ (iv ++ ct)).drop 16 = iv ++ ct := List.drop_left' hs
  have h3 : (iv ++ ct).take 12 = iv := List.take_left' hi
  have h4 : ((salt ++ iv) ++ ct).drop 28 = ct :=
    List.drop_left' (by simp [hs, hi])
  unfold CryptoUtils.decrypt
  rw [List.append_assoc] at h4
  rw [List.append_assoc, h1, h2, h3, h4]

/-- C1: for every JSON-serializable value (represented by its
serialization bytes `pt`) and every password `p`, decrypting the blob
produced by `CryptoUtils.encrypt` with the same password returns the
original value, for any fresh 16-byte salt and 12-byte IV. -/
theorem crypto_roundtrip (pt : List Nat) (p : String) (salt iv : List Nat)
    (hs : salt.length = 16) (hi : iv.length = 12) :
    CryptoUtils.decrypt (CryptoUtils.encrypt pt p salt iv) p = some pt := by
  unfold CryptoUtils.encrypt
  rw [decrypt_parts _ _ _ _ hs hi]
  exact aesGcmDecrypt_encrypt _ _ _

/-- Witness for C1 at a concrete plaintext, password, salt and IV. -/
theorem crypto_roundtrip_witness :
    CryptoUtils.decrypt
      (CryptoUtils.encrypt [104, 105] "pw" (List.replicate 16 7)
        (List.replicate 12 3)) "pw" = some [104, 105] :=
  crypto_roundtrip [104, 105] "pw" (List.replicate 16 7)
    (List.replicate 12 3) (by decide) (by decide)

theorem charToNat_injective : Function.Injective Char.toNat := fun _ _ h =>
  Char.eq_of_val_eq (UInt32.eq_of_toBitVec_eq (BitVec.eq_of_toNat_eq h))

theorem strBytes_injective : Function.Injective strBytes := by
  intro s t h
  have hd := (List.map_injective_iff.mpr charToNat_injective) h
  cases s
  cases t
  simp_all [strBytes]

theorem getD_set_self (l : List Nat) (j b : Nat) (h : j < l.length) :
    (l.set j b).getD j 0 = b := by
  rw [List.getD_eq_getElem?_getD, List.getElem?_set_self h]
  rfl

theorem set_ne_self (l : List Nat) (j b : Nat) (h : j < l.length)
    (hb : b ≠ l.getD j 0) : l.set j b ≠ l := by
  intro he
  have h2 := getD_set_self l j b h
  rw [he] at h2
  exact hb h2.symm

theorem aesGcmDecrypt_append_tagbyte (key : List Nat × List Nat)
    (iv pt : List Nat) (t : Nat) :
    aesGcmDecrypt key iv (pt ++ [t]) =
      if t = tagOf key iv pt then some pt else none := by
  unfold aesGcmDecrypt
  simp

/-- C2: tampering with any single byte of the encrypted blob, or
decrypting with a different password, makes `CryptoUtils.decrypt` raise
`DecryptionError` (modelled by `none`). -/
theorem crypto_tamper_wrongkey (pt : List Nat) (p : String)
    (salt iv : List Nat) (hs : salt.length = 16) (hi : iv.length = 12) :
    (∀ j bnew, j < (CryptoUtils.encrypt pt p salt iv).length → bnew < 256 →
        bnew ≠ (CryptoUtils.encrypt pt p salt iv).getD j 0 →
        CryptoUtils.decrypt ((CryptoUtils.encrypt pt p salt iv).set j bnew) p
          = none)
    ∧ (∀ p2 : String, p2 ≠ p →
        CryptoUtils.decrypt (CryptoUtils.encrypt pt p salt iv) p2 = none) := by
  have hblob : CryptoUtils.encrypt pt p salt iv =
      salt ++ (iv ++ (pt ++ [tagOf (deriveKey p salt) iv pt])) := by
    unfold CryptoUtils.encrypt aesGcmEncrypt
    rw [List.append_assoc]
  constructor
  · intro j bnew hj hb256 hbne
    have hlen : (CryptoUtils.encrypt pt p salt iv).length = 29 + pt.length := by
      rw [hblob]
      simp [hs, hi]
      omega
    rw [hlen] at hj
    rw [hblob] at hbne ⊢
    have hcases : j < 16 ∨ (16 ≤ j ∧ j < 28) ∨ (28 ≤ j ∧ j < 28 + pt.length)
        ∨ j = 28 + pt.length := by omega
    rcases hcases with h16 | ⟨hge, h28⟩ | ⟨hge, hlt⟩ | heq
    · -- the flipped byte lies in the salt
      have hjs : j < salt.length := by omega
      have hbne2 : bnew ≠ salt.getD j 0 := by
        rw [List.getD_append _ _ _ _ hjs] at hbne
        exact hbne
      rw [List.set_append_left j bnew hjs, ← List.append_assoc,
        decrypt_parts _ _ _ _ (by rw [List.length_set]; exact hs) hi,
        aesGcmDecrypt_append_tagbyte, if_neg]
      intro hteq
      obtain ⟨hk, -, -⟩ := tagOf_inj hteq
      have hsalts : salt = salt.set j bnew := congrArg Prod.snd hk
      exact set_ne_self salt j bnew hjs hbne2 hsalts.symm
    · -- the flipped byte lies in the IV
      have hjv : j - 16 < iv.length := by omega
      have hsub : j - salt.length = j - 16 := by rw [hs]
      have hbne2 : bnew ≠ iv.getD (j - 16) 0 := by
        rw [List.getD_append_right _ _ _ _ (by omega), hsub,
          List.getD_append _ _ _ _ hjv] at hbne
        exact hbne
      rw [List.set_append_right j bnew (by omega), hsub,
        List.set_append_left (j - 16) bnew hjv, ← List.append_assoc,
        decrypt_parts _ _ _ _ hs (by rw [List.length_set]; exact hi),
        aesGcmDecrypt_append_tagbyte, if_neg]
      intro hteq
      obtain ⟨-, hv, -⟩ := tagOf_inj hteq
      exact set_ne_self iv (j - 16) bnew hjv hbne2 hv.symm
    · -- the flipped byte lies in the ciphertext payload
      have hjp : j - 28 < pt.length := by omega
      have hsub : j - salt.length = j - 16 := by rw [hs]
      have hsub2 : j - 16 - iv.length = j - 28 := by
        rw [hi]
        omega
      have hbne2 : bnew ≠ pt.getD (j - 28) 0 := by
        rw [List.getD_append_right _ _ _ _ (by omega), hsub,
          List.getD_append_right _ _ _ _ (by omega), hsub2,
          List.getD_append _ _ _ _ hjp] at hbne
        exact hbne
      rw [List.set_append_right j bnew (by omega), hsub,
        List.set_append_right (j - 16) bnew (by omega), hsub2,
        List.set_append_left (j - 28) bnew hjp, ← List.append_assoc,
        decrypt_parts _ _ _ _ hs hi, aesGcmDecrypt_append_tagbyte, if_neg]
      intro hteq
      obtain ⟨-, -, hp2⟩ := tagOf_inj hteq
      exact set_ne_self pt (j - 28) bnew hjp hbne2 hp2.symm
    · -- the flipped byte overwrites the authentication tag
      have hsub : j - salt.length = j - 16 := by rw [hs]
      have hsub2 : j - 16 - iv.length = j - 28 := by
        rw [hi]
        omega
      have hsub3 : j - 28 - pt.length = 0 := by omega
      rw [List.set_append_right j bnew (by omega), hsub,
        List.set_append_right (j - 16) bnew (by omega), hsub2,
        List.set_append_right (j - 28) bnew (by omega), hsub3]
      have hone : [tagOf (deriveKey p salt) iv pt].set 0 bnew = [bnew] := rfl
      rw [hone, ← List.append_assoc, decrypt_parts _ _ _ _ hs hi,
        aesGcmDecrypt_append_tagbyte, if_neg]
      have := tagOf_ge (deriveKey p salt) iv pt
      omega
  · intro p2 hp2
    unfold CryptoUtils.encrypt aesGcmEncrypt
    rw [decrypt_parts _ _ _ _ hs hi, aesGcmDecrypt_append_tagbyte, if_neg]
    intro hteq
    obtain ⟨hk, -, -⟩ := tagOf_inj hteq
    have : strBytes p = strBytes p2 := congrArg Prod.fst hk
    exact hp2 (strBytes_injective this).symm

/-- Witness for C2: a concrete flipped byte and a concrete wrong
password are both rejected. -/
theorem crypto_tamper_wrongkey_witness :
    CryptoUtils.decrypt
        ((CryptoUtils.encrypt [104, 105] "pw" (List.replicate 16 7)
          (List.replicate 12 3)).set 0 9) "pw" = none
    ∧ CryptoUtils.decrypt
        (CryptoUtils.encrypt [104, 105] "pw" (List.replicate 16 7)
          (List.replicate 12 3)) "qq" = none := by
  have h := crypto_tamper_wrongkey [104, 105] "pw" (List.replicate 16 7)
    (List.replicate 12 3) (by decide) (by decide)
  refine ⟨h.1 0 9 ?_ (by decide) ?_, h.2 "qq" (by decide)⟩
  · simp [CryptoUtils.encrypt, aesGcmEncrypt]
  · simp [CryptoUtils.encrypt]

/-! ## Secure Storage Layer (StorageManager, deploy/github/js/storage-manager.js) -/

/-- A record of the `secureData` collection as persisted by
`setSecureData` (either as an IndexedDB row or as the JSON stored under
`secure_<key>` in localStorage; both branches persist the same record). -/
structure SecRecord where
  key : String
  data : List Nat
  timestamp : Nat
deriving DecidableEq, Repr

/-- A record of the `cache` collection as persisted by `setCacheData`. -/
structure CacheRecord where
  key : String
  data : Nat
  expires : Nat
  timestamp : Nat
deriving DecidableEq, Repr

/-- A usage record as persisted by `storeUsageData`; the payload fields
(source, model, tokens, cost, date) are opaque to every claim and are
folded into one `payload` value. -/
structure UsageRecord where
  id : Nat
  payload : Nat
  timestamp : Nat
deriving DecidableEq, Repr

/-- Input to `storeUsageData`: the caller may or may not supply an id. -/
structure UsageInput where
  id : Option Nat
  payload : Nat
deriving DecidableEq, Repr

/-- The mutable state of a `StorageManager` instance: the encryption key
(`this.encryptionKey`, absent when Web Crypto is unavailable), whether
the IndexedDB open succeeded (`this.db`), and the contents of the
collections each claim touches.  `usageDB` is the IndexedDB `usageData`
object store (keyPath `id`), `usageLS` the `usage_data` localStorage
array of the fallback path. -/
structure StorageState where
  encryptionKey : Option (List Nat × List Nat)
  hasDB : Bool
  secure : String → Option SecRecord
  cache : String → Option CacheRecord
  usageDB : List UsageRecord
  usageLS : List UsageRecord

/-- `fallbackEncrypt` (storage-manager.js lines 493-500):
`btoa(JSON.stringify(data))`, i.e. plain base64 of the serialization
with no key involved; with the base64 transport elided the output is the
serialization bytes themselves. -/
def StorageManager.fallbackEncrypt (pt : List Nat) : List Nat :=
  pt

/-- `encryptData` (lines 421-452): AES-GCM under `this.encryptionKey`
with a fresh 12-byte IV, output `iv ++ ciphertext`, when a key is held;
otherwise `fallbackEncrypt`.  The catch branch (encryption failure) also
falls back, and is unreachable in the ideal cipher model. -/
def StorageManager.encryptData (ek : Option (List Nat × List Nat))
    (iv pt : List Nat) : List Nat :=
  match ek with
  | none => StorageManager.fallbackEncrypt pt
  | some k => iv ++ aesGcmEncrypt k iv pt

/-- `setSecureData` (lines 517-542): build the record
`{key, data: encryptData(value), timestamp: Date.now()}` and persist it
under `key` (IndexedDB `put` and the localStorage branch both overwrite
the entry for `key` with this record). -/
def StorageManager.setSecureData (st : StorageState) (key : String)
    (pt iv : List Nat) (now : Nat) : StorageState :=
  let record : SecRecord :=
    { key := key,
      data := StorageManager.encryptData st.encryptionKey iv pt,
      timestamp := now }
  { st with secure := fun k => if k = key then some record else st.secure k }

/-- A storage manager whose Web Crypto key setup failed
(`this.encryptionKey` is null) over empty collections. -/
def noKeyState : StorageState :=
  { encryptionKey := none, hasDB := false, secure := fun _ => none,
    cache := fun _ => none, usageDB := [], usageLS := [] }

/-- A storage manager holding an encryption key, with IndexedDB open,
over empty collections. -/
def keyedState : StorageState :=
  { encryptionKey := some ([1], [2]), hasDB := true,
    secure := fun _ => none, cache := fun _ => none,
    usageDB := [], usageLS := [] }

/-- Counterexample to C3: with no encryption key available,
`setSecureData` persists the value's serialization bytes themselves
(`fallbackEncrypt` is plain base64 of the JSON, not encryption), so the
persisted record does contain the plaintext merely base64-encoded. -/
theorem setSecure_plaintext_counterexample :
    ((StorageManager.setSecureData noKeyState "userProfile" [1, 2, 3] []
        0).secure "userProfile").map SecRecord.data = some [1, 2, 3] := by
  simp [StorageManager.setSecureData, StorageManager.encryptData,
    StorageManager.fallbackEncrypt, noKeyState]

/-- C3 as amended: `setSecureData` persists exactly the record built
from `encryptData`; when the manager holds an encryption key the
persisted bytes are the AES-GCM blob (in particular not the plain
serialization), and when it holds none they are only the base64-encoded
serialization produced by `fallbackEncrypt`. -/
theorem setSecure_encrypts_when_keyed (st : StorageState) (key : String)
    (pt iv : List Nat) (now : Nat) :
    ((StorageManager.setSecureData st key pt iv now).secure key =
      some { key := key,
             data := StorageManager.encryptData st.encryptionKey iv pt,
             timestamp := now })
    ∧ (∀ K, st.encryptionKey = some K →
        StorageManager.encryptData st.encryptionKey iv pt
          = iv ++ aesGcmEncrypt K iv pt
        ∧ StorageManager.encryptData st.encryptionKey iv pt ≠ pt)
    ∧ (st.encryptionKey = none →
        StorageManager.encryptData st.encryptionKey iv pt
          = StorageManager.fallbackEncrypt pt) := by
  refine ⟨by simp [StorageManager.setSecureData], ?_, ?_⟩
  · intro K hK
    rw [hK]
    refine ⟨rfl, ?_⟩
    intro hcontra
    have hlen := congrArg List.length hcontra
    simp [StorageManager.encryptData, aesGcmEncrypt] at hlen
    omega
  · intro hK
    rw [hK]
    rfl

/-- Witness for the amended C3 at concrete keyed and key-less states. -/
theorem setSecure_encrypts_when_keyed_witness :
    StorageManager.encryptData keyedState.encryptionKey [9] [5]
      = [9] ++ aesGcmEncrypt ([1], [2]) [9] [5]
    ∧ StorageManager.encryptData noKeyState.encryptionKey [9] [5]
      = StorageManager.fallbackEncrypt [5] := by
  have h1 := setSecure_encrypts_when_keyed keyedState "k" [5] [9] 0
  have h2 := setSecure_encrypts_when_keyed noKeyState "k" [5] [9] 0
  exact ⟨(h1.2.1 ([1], [2]) rfl).1, h2.2.2 rfl⟩

/-- `setCacheData` (lines 677-700): persist
`{key, data, expires: Date.now() + ttl, timestamp: Date.now()}` under
`key`. -/
def StorageManager.setCacheData (st : StorageState) (key : String)
    (v ttl now : Nat) : StorageState :=
  let record : CacheRecord :=
    { key := key, data := v, expires := now + ttl, timestamp := now }
  { st with cache := fun k => if k = key then some record else st.cache k }

/-- `removeCacheData` (lines 740-753): delete the entry for `key`. -/
def StorageManager.removeCacheData (st : StorageState) (key : String) :
    StorageState :=
  { st with cache := fun k => if k = key then none else st.cache k }

/-- `getCacheData` (lines 704-735): read the record for `key`; a missing
record is a miss; `Date.now() > record.expires` deletes the record and
is a miss; otherwise the stored value is returned.  The result pairs the
returned value with the state after the call. -/
def StorageManager.getCacheData (st : StorageState) (key : String)
    (now : Nat) : Option Nat × StorageState :=
  match st.cache key with
  | none => (none, st)
  | some r =>
    if r.expires < now then (none, StorageManager.removeCacheData st key)
    else (some r.data, st)

/-- C4: after `setCacheData k v ttl` at time `t0`, a read strictly after
the expiry time `t0 + ttl` misses and deletes the entry, and a read at
or before the expiry time returns the stored value with the state
unchanged. -/
theorem cache_ttl (st : StorageState) (k : String) (v ttl t0 t1 : Nat) :
    (t0 + ttl < t1 →
      StorageManager.getCacheData (StorageManager.setCacheData st k v ttl t0)
          k t1
        = (none, StorageManager.removeCacheData
            (StorageManager.setCacheData st k v ttl t0) k)
      ∧ (StorageManager.getCacheData (StorageManager.setCacheData st k v ttl
          t0) k t1).2.cache k = none)
    ∧ (t1 ≤ t0 + ttl →
      StorageManager.getCacheData (StorageManager.setCacheData st k v ttl t0)
          k t1
        = (some v, StorageManager.setCacheData st k v ttl t0)) := by
  have hc : (StorageManager.setCacheData st k v ttl t0).cache k
      = some { key := k, data := v, expires := t0 + ttl, timestamp := t0 } := by
    simp [StorageManager.setCacheData]
  constructor
  · intro hexp
    constructor
    · simp [StorageManager.getCacheData, hc, hexp]
    · simp [StorageManager.getCacheData, hc, hexp,
        StorageManager.removeCacheData]
  · intro hle
    have : ¬ (t0 + ttl < t1) := by omega
    simp [StorageManager.getCacheData, hc, this]

/-- Witness for C4 at a concrete key, value, TTL and read times. -/
theorem cache_ttl_witness :
    StorageManager.getCacheData
        (StorageManager.setCacheData noKeyState "summary" 42 100 0) "summary"
        101
      = (none, StorageManager.removeCacheData
          (StorageManager.setCacheData noKeyState "summary" 42 100 0)
          "summary")
    ∧ StorageManager.getCacheData
        (StorageManager.setCacheData noKeyState "summary" 42 100 0) "summary"
        100
      = (some 42, StorageManager.setCacheData noKeyState "summary" 42 100 0)
    := by
  have h1 := cache_ttl noKeyState "summary" 42 100 0 101
  have h2 := cache_ttl noKeyState "summary" 42 100 0 100
  exact ⟨(h1.1 (by decide)).1, h2.2 (by decide)⟩

/-- The id actually stored by `storeUsageData`: `data.id || Date.now()`
in JavaScript, where an absent id and the falsy id `0` are both replaced
by the current time. -/
def jsOrId (id : Option Nat) (now : Nat) : Nat :=
  match id with
  | none => now
  | some i => if i = 0 then now else i

/-- The record `storeUsageData` builds from its input at time `now`. -/
def mkUsageRecord (input : UsageInput) (now : Nat) : UsageRecord :=
  { id := jsOrId input.id now, payload := input.payload, timestamp := now }

/-- IndexedDB `store.put(record)` on an object store with keyPath `id`:
replace the row whose key equals `record.id` if one exists, otherwise
insert the record. -/
def StorageManager.dbPut (l : List UsageRecord) (r : UsageRecord) :
    List UsageRecord :=
  if l.any (fun x => x.id == r.id) then
    l.map (fun x => if x.id == r.id then r else x)
  else l ++ [r]

/-- The localStorage fallback branch of `storeUsageData` (lines
614-623): push the record onto the `usage_data` array, then
`splice(0, length - 1000)` so that only the last 1000 records remain. -/
def StorageManager.lsAppendUsage (l : List UsageRecord) (r : UsageRecord) :
    List UsageRecord :=
  let e := l ++ [r]
  if 1000 < e.length then e.drop (e.length - 1000) else e

/-- `storeUsageData` (lines 601-632): build the record with
`id: data.id || Date.now()` and `timestamp: Date.now()`, then `put` it
into the IndexedDB store when the database is open, otherwise append to
the capped localStorage array. -/
def StorageManager.storeUsageData (st : StorageState) (input : UsageInput)
    (now : Nat) : StorageState :=
  let record := mkUsageRecord input now
  if st.hasDB then { st with usageDB := StorageManager.dbPut st.usageDB record }
  else { st with usageLS := StorageManager.lsAppendUsage st.usageLS record }

/-- A storage manager with IndexedDB open whose usage store already
holds one record with id 5. -/
def dbOneState : StorageState :=
  { encryptionKey := none, hasDB := true, secure := fun _ => none,
    cache := fun _ => none,
    usageDB := [{ id := 5, payload := 1, timestamp := 0 }], usageLS := [] }

/-- Counterexample to C8: storing a record whose id collides with an
existing record replaces that record (IndexedDB `put` semantics), so the
previously stored record is no longer present afterwards. -/
theorem storeUsage_replaces_counterexample :
    (StorageManager.storeUsageData dbOneState
        { id := some 5, payload := 2 } 10).usageDB
      = [{ id := 5, payload := 2, timestamp := 10 }]
    ∧ ({ id := 5, payload := 1, timestamp := 0 } : UsageRecord) ∉
      (StorageManager.storeUsageData dbOneState
        { id := some 5, payload := 2 } 10).usageDB := by
  decide

/-- C8 as amended: `storeUsageData` preserves all previously stored
records and appends the new one, provided the record's effective id is
fresh (IndexedDB path) and, in the localStorage fallback, the 1000-record
cap is not yet reached; on an id collision the existing record is
replaced instead. -/
theorem storeUsage_append_when_fresh (st : StorageState) (input : UsageInput)
    (now : Nat) :
    (st.hasDB = true →
      (∀ r ∈ st.usageDB, r.id ≠ jsOrId input.id now) →
      (StorageManager.storeUsageData st input now).usageDB
        = st.usageDB ++ [mkUsageRecord input now])
    ∧ (st.hasDB = false → st.usageLS.length < 1000 →
      (StorageManager.storeUsageData st input now).usageLS
        = st.usageLS ++ [mkUsageRecord input now]) := by
  constructor
  · intro hdb hfresh
    have hany : st.usageDB.any
        (fun x => x.id == (mkUsageRecord input now).id) = false := by
      simp only [List.any_eq_false, beq_iff_eq]
      exact fun r hr => hfresh r hr
    simp [StorageManager.storeUsageData, hdb, StorageManager.dbPut, hany]
  · intro hdb hlen
    simp [StorageManager.storeUsageData, hdb, StorageManager.lsAppendUsage]
    intro h
    exact absurd h (by omega)

/-- Witness for the amended C8: a fresh id appends on the IndexedDB
path, and a small fallback array appends on the localStorage path. -/
theorem storeUsage_append_when_fresh_witness :
    (StorageManager.storeUsageData dbOneState
        { id := some 6, payload := 3 } 10).usageDB
      = dbOneState.usageDB ++ [mkUsageRecord { id := some 6, payload := 3 } 10]
    ∧ (StorageManager.storeUsageData noKeyState
        { id := none, payload := 4 } 11).usageLS
      = noKeyState.usageLS ++ [mkUsageRecord { id := none, payload := 4 } 11]
    := by
  have h1 := (storeUsage_append_when_fresh dbOneState
    { id := some 6, payload := 3 } 10).1 rfl (by decide)
  have h2 := (storeUsage_append_when_fresh noKeyState
    { id := none, payload := 4 } 11).2 rfl (by decide)
  exact ⟨h1, h2⟩

/-- C9: on the localStorage fallback path every append leaves at most
1000 records, and the records kept are exactly the most recent suffix of
the appended sequence. -/
theorem usage_fallback_capped (st : StorageState) (input : UsageInput)
    (now : Nat) (hdb : st.hasDB = false) :
    (StorageManager.storeUsageData st input now).usageLS.length ≤ 1000
    ∧ (StorageManager.storeUsageData st input now).usageLS
      = (st.usageLS ++ [mkUsageRecord input now]).drop
        ((st.usageLS ++ [mkUsageRecord input now]).length - 1000) := by
  have hunfold : (StorageManager.storeUsageData st input now).usageLS
      = StorageManager.lsAppendUsage st.usageLS (mkUsageRecord input now) := by
    simp [StorageManager.storeUsageData, hdb]
  rw [hunfold]
  unfold StorageManager.lsAppendUsage
  by_cases hcap : 1000 < (st.usageLS ++ [mkUsageRecord input now]).length
  · rw [if_pos hcap]
    constructor
    · rw [List.length_drop]
      omega
    · rfl
  · rw [if_neg hcap]
    constructor
    · omega
    · have hz : (st.usageLS ++ [mkUsageRecord input now]).length - 1000
          = 0 := by omega
      rw [hz, List.drop_zero]

/-- Witness for C9 on a concrete fallback state. -/
theorem usage_fallback_capped_witness :
    (StorageManager.storeUsageData noKeyState
        { id := some 8, payload := 1 } 3).usageLS.length ≤ 1000
    ∧ (StorageManager.storeUsageData noKeyState
        { id := some 8, payload := 1 } 3).usageLS
      = (noKeyState.usageLS ++
          [mkUsageRecord { id := some 8, payload := 1 } 3]).drop
        ((noKeyState.usageLS ++
          [mkUsageRecord { id := some 8, payload := 1 } 3]).length - 1000) :=
  usage_fallback_capped noKeyState { id := some 8, payload := 1 } 3 rfl

/-! ## Session/Credential Manager (ManualAuthManager, js/auth/manual-auth.js) -/

/-- The user profile built by the manual authentication paths; the
fields every claim touches (the password hash and avatar fields are
unused by any claim and omitted). -/
structure UserProfile where
  email : String
  name : String
  auth_method : String
  auth_time : Nat
  remember_me : Bool
  expires_at : Nat
deriving DecidableEq, Repr

/-- The in-memory (`this.currentUser`) and persisted (the decrypted
`userProfile` secure record, or `null`) session state of a
`ManualAuthManager`. -/
structure AuthState where
  currentUser : Option UserProfile
  stored : Option UserProfile
deriving DecidableEq, Repr

/-- `isSessionValid` (lines 405-411): false when `expires_at` is
missing or falsy (0), otherwise `Date.now() < expires_at`. -/
def ManualAuth.isSessionValid (now : Nat) (up : UserProfile) : Bool :=
  if up.expires_at = 0 then false else decide (now < up.expires_at)

/-- `checkExistingSession` (lines 366-400): read the stored profile; a
valid one becomes the current user (session restored); an invalid one is
cleared from storage (`clearStoredSession`); the returned flag reports
whether a session was restored. -/
def ManualAuth.checkExistingSession (now : Nat) (st : AuthState) :
    Bool × AuthState :=
  match st.stored with
  | none => (false, st)
  | some up =>
    if ManualAuth.isSessionValid now up then
      (true, { st with currentUser := some up })
    else
      (false, { st with stored := none })

/-- `isSignedIn` (lines 589-591): a current user exists and its session
is still valid. -/
def ManualAuth.isSignedIn (now : Nat) (st : AuthState) : Bool :=
  match st.currentUser with
  | none => false
  | some u => ManualAuth.isSessionValid now u

/-- C5: a stored credential record whose expiry lies strictly in the
past is never restored by `checkExistingSession` (run at startup, when
no current user exists yet): the restore reports failure, the expired
record is removed from storage, and `isSignedIn` is false afterwards. -/
theorem session_expiry_cleanup (st : AuthState) (up : UserProfile) (now : Nat)
    (hcur : st.currentUser = none) (hstored : st.stored = some up)
    (hexp : up.expires_at < now) :
    (ManualAuth.checkExistingSession now st).1 = false
    ∧ (ManualAuth.checkExistingSession now st).2.stored = none
    ∧ ManualAuth.isSignedIn now (ManualAuth.checkExistingSession now st).2
      = false := by
  have hvalid : ManualAuth.isSessionValid now up = false := by
    unfold ManualAuth.isSessionValid
    by_cases h0 : up.expires_at = 0
    · simp [h0]
    · simp only [h0, if_false]
      simpa using by omega
  simp [ManualAuth.checkExistingSession, hstored, hvalid,
    ManualAuth.isSignedIn, hcur]

/-- A credential record whose expiry (1000) lies in the past at the
restore time (2000) used by the C5 witness. -/
def expiredProfile : UserProfile :=
  { email := "a@b.com", name := "a", auth_method := "password",
    auth_time := 0, remember_me := true, expires_at := 1000 }

/-- A freshly constructed manager (no current user) that still has the
expired record persisted. -/
def expiredAuthState : AuthState :=
  { currentUser := none, stored := some expiredProfile }

/-- Witness for C5 with a concrete expired profile. -/
theorem session_expiry_cleanup_witness :
    (ManualAuth.checkExistingSession 2000 expiredAuthState).1 = false
    ∧ (ManualAuth.checkExistingSession 2000 expiredAuthState).2.stored = none
    ∧ ManualAuth.isSignedIn 2000
        (ManualAuth.checkExistingSession 2000 expiredAuthState).2 = false :=
  session_expiry_cleanup expiredAuthState expiredProfile 2000 rfl rfl
    (by decide)

/-- The `password.startsWith(prefixString)` test, computed on the
character lists. -/
def strStarts (s pat : String) : Bool :=
  pat.data.isPrefixOf s.data

/-- `isValidAPIKey` (lines 298-301): the key must be truthy and either
start with the Anthropic key marker `sk-ant-` or be longer than 20
characters. -/
def ManualAuth.isValidAPIKey (k : String) : Bool :=
  if k = "" then false else (strStarts k "sk-ant-" || 20 < k.data.length)

/-- Characters before the first `@`, computed structurally. -/
def beforeAt : List Char → List Char
  | [] => []
  | c :: cs => if c = '@' then [] else c :: beforeAt cs

/-- The `email.split('@')[0]` expression both authenticators use for the
display name: the prefix of the address before the first `@` (the whole
address when it has no `@`, as in JavaScript). -/
def emailName (email : String) : String :=
  String.mk (beforeAt email.data)

/-- `authenticateWithAPIKey` (lines 242-267): reject an invalid key
format, otherwise fabricate a profile whose `expires_at` is
`Date.now() + 7 * 24 * 60 * 60 * 1000` (7 days), independent of the
remember-me flag. -/
def ManualAuth.authenticateWithAPIKey (email password : String)
    (rememberMe : Bool) (now : Nat) : Option UserProfile :=
  if ManualAuth.isValidAPIKey password then
    some { email := email, name := emailName email,
           auth_method := "api_key", auth_time := now,
           remember_me := rememberMe,
           expires_at := now + 7 * 24 * 60 * 60 * 1000 }
  else none

/-- `authenticateWithPassword` (lines 272-293): accept any pair and
fabricate a profile whose `expires_at` is
`Date.now() + (rememberMe ? 30 : 1) * 24 * 60 * 60 * 1000`. -/
def ManualAuth.authenticateWithPassword (email password : String)
    (rememberMe : Bool) (now : Nat) : UserProfile :=
  { email := email, name := emailName email,
    auth_method := "password", auth_time := now,
    remember_me := rememberMe,
    expires_at := now + (if rememberMe then 30 else 1) * 24 * 60 * 60 * 1000 }

/-- Counterexample to C6: an API-key login with rememberMe = false
yields a record whose TTL is 7 days (604800000 ms), not the claimed 24
hours (86400000 ms). -/
theorem session_ttl_counterexample :
    ((ManualAuth.authenticateWithAPIKey "a@b.com" "sk-ant-key" false 0).map
      (fun u => u.expires_at - u.auth_time)) = some 604800000
    ∧ (604800000 : Nat) ≠ 86400000 := by
  constructor
  · decide
  · decide

/-- C6 as amended: password logins set `expires_at` to `auth_time` plus
24 hours (rememberMe false) or 30 days (rememberMe true), while API-key
logins always set it to `auth_time` plus 7 days regardless of the
remember-me flag. -/
theorem session_ttl_amended (email password : String) (r : Bool) (now : Nat) :
    ((ManualAuth.authenticateWithPassword email password r now).expires_at
      = (ManualAuth.authenticateWithPassword email password r now).auth_time
        + (if r then 30 else 1) * 24 * 60 * 60 * 1000)
    ∧ (∀ up, ManualAuth.authenticateWithAPIKey email password r now = some up →
        up.expires_at = up.auth_time + 7 * 24 * 60 * 60 * 1000) := by
  constructor
  · rfl
  · intro up h
    by_cases hv : ManualAuth.isValidAPIKey password
    · rw [ManualAuth.authenticateWithAPIKey, if_pos hv] at h
      cases h
      rfl
    · rw [ManualAuth.authenticateWithAPIKey, if_neg hv] at h
      cases h

/-- The profile an API-key login at time 5 with rememberMe = true
produces, used by the C6 witness. -/
def apiProfile : UserProfile :=
  { email := "a@b.com", name := "a", auth_method := "api_key",
    auth_time := 5, remember_me := true,
    expires_at := 5 + 7 * 24 * 60 * 60 * 1000 }

/-- Witness for the amended C6 at concrete logins. -/
theorem session_ttl_amended_witness :
    ((ManualAuth.authenticateWithPassword "a@b.com" "pw" false 5).expires_at
      = (ManualAuth.authenticateWithPassword "a@b.com" "pw" false 5).auth_time
        + (if false then 30 else 1) * 24 * 60 * 60 * 1000)
    ∧ apiProfile.expires_at = apiProfile.auth_time + 7 * 24 * 60 * 60 * 1000
    := by
  refine ⟨(session_ttl_amended "a@b.com" "pw" false 5).1, ?_⟩
  exact (session_ttl_amended "a@b.com" "sk-ant-key" true 5).2 apiProfile
    (by decide)

/-! ## Offline Cache / Service Worker (unnamed/part_002, service-worker.js) -/

/-- The observable part of an HTTP response the service worker claims
touch: its status, the `response.ok` flag, and whether its JSON body
carries `offline: true`. -/
structure SWResponse where
  status : Nat
  ok : Bool
  offlineJson : Bool
deriving DecidableEq, Repr

/-- The synthetic offline fallback built by `networkFirst` (part_002
lines 248-261): status 503 with body
`{offline: true, error: ..., message: ...}`. -/
def offlineResponse : SWResponse :=
  { status := 503, ok := false, offlineJson := true }

/-- `networkFirst` (part_002 lines 226-263).  The network outcome
(`none` when `fetch` rejects) and the cache lookup result enter as
parameters; the first component is the response returned to the page,
the second the entry written to the dynamic cache (`cache.put`), if
any.  The function is total: a network failure is caught and converted,
never re-thrown. -/
def networkFirst (net : Option SWResponse) (cached : Option SWResponse)
    (isDynamic : Bool) : SWResponse × Option SWResponse :=
  match net with
  | some r => (r, if r.ok && isDynamic then some r else none)
  | none =>
    match cached with
    | some c => (c, none)
    | none => (offlineResponse, none)

/-- C7: when the network fetch fails, a network-first request is served
from the cache, and when the cache also misses, it is answered by the
synthetic 503 response whose JSON body contains `offline: true`; the raw
network error is never propagated. -/
theorem networkFirst_offline (cached : Option SWResponse)
    (isDynamic : Bool) :
    (∀ c, cached = some c → networkFirst none cached isDynamic = (c, none))
    ∧ (cached = none →
        networkFirst none cached isDynamic = (offlineResponse, none)
        ∧ offlineResponse.status = 503
        ∧ offlineResponse.offlineJson = true) := by
  constructor
  · intro c hc
    rw [hc]
    rfl
  · intro hc
    rw [hc]
    exact ⟨rfl, rfl, rfl⟩

/-- Witness for C7: a concrete cached response is served on network
failure, and a concrete empty cache yields the offline 503. -/
theorem networkFirst_offline_witness :
    networkFirst none
        (some { status := 200, ok := true, offlineJson := false }) true
      = ({ status := 200, ok := true, offlineJson := false }, none)
    ∧ networkFirst none none false = (offlineResponse, none) := by
  refine ⟨(networkFirst_offline _ true).1 _ rfl, ?_⟩
  exact ((networkFirst_offline none false).2 rfl).1

/-- A substring test (`url.includes(pattern)` in JavaScript), computed
on the character lists. -/
def strHasSub (s pat : String) : Bool :=
  (List.range (s.data.length + 1)).any
    (fun i => pat.data.isPrefixOf (s.data.drop i))

/-- The three caching strategies of the part_002 service worker. -/
inductive Strategy where
  | networkFirstStrat
  | cacheFirstStrat
  | staleWhileRevalidateStrat
deriving DecidableEq, Repr

/-- `NETWORK_FIRST` (part_002 lines 45-49). -/
def NETWORK_FIRST : List String :=
  ["https://accounts.google.com/", "https://apis.google.com/", "/api/"]

/-- `STATIC_ASSETS` (part_002 lines 12-35). -/
def STATIC_ASSETS : List String :=
  ["/", "/index.html", "/manifest.json", "/css/main.css",
   "/css/animations.css", "/css/auth.css", "/css/responsive.css",
   "/js/config.js", "/js/utils.js", "/js/storage.js",
   "/js/auth/google-auth.js", "/js/auth/manual-auth.js",
   "/js/auth/auth-manager.js", "/js/data-collector.js", "/js/charts.js",
   "/js/theme.js", "/js/dashboard.js", "/js/app.js",
   "https://fonts.googleapis.com/css2?family=Inter:wght@300;400;500;600;700&family=JetBrains+Mono:wght@400;500&display=swap",
   "https://fonts.googleapis.com/icon?family=Material+Icons",
   "https://cdn.jsdelivr.net/npm/chart.js"]

/-- `isNetworkFirst` (part_002 lines 199-201). -/
def isNetworkFirstUrl (url : String) : Bool :=
  NETWORK_FIRST.any (fun pat => strHasSub url pat)

/-- `isStaticAsset` (part_002 lines 206-211). -/
def isStaticAsset (url : String) : Bool :=
  STATIC_ASSETS.contains url || strHasSub url "/css/"
    || strHasSub url "/js/" || strHasSub url "/assets/"

/-- The part_002 fetch listener (lines 103-119): non-GET requests and
chrome-extension URLs are skipped (no `respondWith`, modelled as
`none`); every other request is classified into exactly one strategy. -/
def handleFetch (method protocol url : String) : Option Strategy :=
  if method != "GET" || protocol == "chrome-extension:" then none
  else if isNetworkFirstUrl url then some Strategy.networkFirstStrat
  else if isStaticAsset url then some Strategy.cacheFirstStrat
  else some Strategy.staleWhileRevalidateStrat

/-- The two paths of the service-worker.js fetch listener. -/
inductive SWStrategy where
  | apiNetwork
  | cacheFirstSW
deriving DecidableEq, Repr

/-- The service-worker.js fetch listener (lines 72-79 and onwards):
non-GET requests are skipped; `https://api.anthropic.com` requests get
the network-then-cache path, everything else cache-first. -/
def handleFetchSW (method origin : String) : Option SWStrategy :=
  if method != "GET" then none
  else if origin == "https://api.anthropic.com" then some SWStrategy.apiNetwork
  else some SWStrategy.cacheFirstSW

/-- C10: neither fetch handler issues a `respondWith` for a request
whose method is not GET (and part_002 also skips chrome-extension
URLs), so such requests pass through to the network untouched and no
cache is read or written for them. -/
theorem nonget_passthrough (method protocol url origin : String)
    (h : method ≠ "GET") :
    handleFetch method protocol url = none
    ∧ handleFetchSW method origin = none := by
  have hb : (method != "GET") = true := by
    simp [h]
  constructor
  · unfold handleFetch
    rw [hb]
    rfl
  · unfold handleFetchSW
    rw [hb]
    rfl

/-- Witness for C10 at a concrete POST request. -/
theorem nonget_passthrough_witness :
    handleFetch "POST" "https:" "https://api.anthropic.com/v1/messages"
      = none
    ∧ handleFetchSW "POST" "https://api.anthropic.com" = none :=
  nonget_passthrough "POST" "https:" "https://api.anthropic.com/v1/messages"
    "https://api.anthropic.com" (by decide)
